import Mathlib

/-!
Verification development for the GEN-MOF three-stage extraction and scoring
pipeline (`agents.py`).  The Python functions are shallowly embedded: Python
values become the inductive `PyVal`, fallible operations return `Except PyErr`,
and the JSON parsing done by the standard library is modelled by an executable
parser `json_loads` over the fragment of JSON the pipeline exchanges
(null, booleans, integers, strings, arrays, objects).
-/

/-- Model of a Python runtime value as exchanged by the pipeline:
`None`, booleans, integers, strings, lists and string-keyed dicts.
(Floats are outside the modelled fragment.) -/
inductive PyVal where
  | none : PyVal
  | bool : Bool → PyVal
  | int : Int → PyVal
  | str : String → PyVal
  | list : List PyVal → PyVal
  | dict : List (String × PyVal) → PyVal

/-- Model of the Python exceptions relevant here: `json.JSONDecodeError`
(raised by `json.loads`) and `AttributeError` (raised by calling `.get`
on a non-dict value). -/
inductive PyErr where
  | jsonDecodeError : PyErr
  | attributeError : PyErr

/-- Key lookup in a Python dict (keys are unique; first match). -/
def dictLookup : List (String × PyVal) → String → Option PyVal
  | [], _ => Option.none
  | (k', v) :: rest, k => if k' = k then some v else dictLookup rest k

/-- `d[k] = v` on a Python dict: an existing key keeps its position and gets
the new value, a new key is appended. -/
def dictInsert : List (String × PyVal) → String → PyVal → List (String × PyVal)
  | [], k, v => [(k, v)]
  | (k', v') :: rest, k, v =>
    if k' = k then (k', v) :: rest else (k', v') :: dictInsert rest k v

/-- Python truthiness of a `PyVal`. -/
def truthy : PyVal → Bool
  | PyVal.none => false
  | PyVal.bool b => b
  | PyVal.int n => if n = 0 then false else true
  | PyVal.str s => if s.data = [] then false else true
  | PyVal.list [] => false
  | PyVal.list (_ :: _) => true
  | PyVal.dict [] => false
  | PyVal.dict (_ :: _) => true

/-- The Python `or` operator: `a or b` is `a` when `a` is truthy, else `b`. -/
def pyOr (a b : PyVal) : PyVal := if truthy a then a else b

mutual

/-- Python `repr` of a value, restricted to the modelled fragment (string
`repr` is simplified to plain single quotes). -/
def pyRepr : PyVal → String
  | PyVal.none => "None"
  | PyVal.bool true => "True"
  | PyVal.bool false => "False"
  | PyVal.int n => toString n
  | PyVal.str s => "'" ++ s ++ "'"
  | PyVal.list xs => "[" ++ pyReprList xs ++ "]"
  | PyVal.dict kvs => "\x7b" ++ pyReprKVs kvs ++ "\x7d"

/-- Comma-separated `repr`s of list elements. -/
def pyReprList : List PyVal → String
  | [] => ""
  | [x] => pyRepr x
  | x :: xs => pyRepr x ++ ", " ++ pyReprList xs

/-- Comma-separated `repr`s of dict items. -/
def pyReprKVs : List (String × PyVal) → String
  | [] => ""
  | [(k, v)] => "'" ++ k ++ "': " ++ pyRepr v
  | (k, v) :: kvs => "'" ++ k ++ "': " ++ pyRepr v ++ ", " ++ pyReprKVs kvs

end

/-- Python `str()` of a value, as used by f-string interpolation: a string is
itself, everything else renders via `repr`-style text. -/
def pyStr : PyVal → String
  | PyVal.str s => s
  | v => pyRepr v

/-- The whitespace characters stripped by Python `str.strip()` (ASCII part). -/
def isPySpace (c : Char) : Bool :=
  c = ' ' || c = '\t' || c = '\n' || c = '\r' || c = '\x0b' || c = '\x0c'

/-- Python `s.strip()`: drop leading and trailing whitespace. -/
def pyStrip (s : String) : String :=
  String.mk (((s.data.dropWhile isPySpace).reverse.dropWhile isPySpace).reverse)

/-- Python `sep.join(xs)`. -/
def pyJoin (sep : String) : List String → String
  | [] => ""
  | [x] => x
  | x :: xs => x ++ sep ++ pyJoin sep xs

/-- Index of the first occurrence of `t`, counting from `i`. -/
def findIdxA : List Char → Char → Nat → Option Nat
  | [], _, _ => Option.none
  | c :: cs, t, i => if c = t then some i else findIdxA cs t (i + 1)

/-- Python `s.find(t)` for a single character: first index or `-1`. -/
def pyFindC (s : String) (t : Char) : Int :=
  match findIdxA s.data t 0 with
  | some i => (i : Int)
  | Option.none => -1

/-- Python `s.rfind(t)` for a single character: last index or `-1`. -/
def pyRFindC (s : String) (t : Char) : Int :=
  match findIdxA s.data.reverse t 0 with
  | some i => ((s.data.length - 1 - i : Nat) : Int)
  | Option.none => -1

/-- Python slicing `s[a:b]` (step 1), including negative-index semantics. -/
def pySlice (s : String) (a b : Int) : String :=
  let n : Int := (s.data.length : Int)
  let a' : Int := if a < 0 then max (n + a) 0 else min a n
  let b' : Int := if b < 0 then max (n + b) 0 else min b n
  String.mk ((s.data.drop a'.toNat).take (b'.toNat - a'.toNat))

/-- Python `s[:n]` for `0 ≤ n`. -/
def pyTake (s : String) (n : Nat) : String := String.mk (s.data.take n)

/-! ## A model of `json.loads`

Executable recursive-descent parser for the JSON fragment the pipeline
exchanges: `null`, `true`, `false`, integers, strings with the basic escapes,
arrays and objects (duplicate object keys resolve like Python dict insertion).
Floating-point numbers and `\uXXXX` escapes are outside the modelled fragment.
A failed parse models `json.JSONDecodeError`. -/

/-- JSON insignificant whitespace. -/
def jSkipWs (cs : List Char) : List Char :=
  cs.dropWhile (fun c => c = ' ' || c = '\t' || c = '\n' || c = '\r')

/-- Decimal digits to a natural number. -/
def digitsToNat (ds : List Char) : Nat :=
  ds.foldl (fun a c => a * 10 + (c.toNat - 48)) 0

/-- The JSON string escape table of the modelled fragment: each escape
letter paired with the character it denotes. -/
def jEscTable : List (Char × Char) :=
  [('"', '"'), ('\\', '\\'), ('/', '/'), ('n', '\n'),
   ('t', '\t'), ('r', '\r'), ('b', '\x08'), ('f', '\x0c')]

/-- The JSON string escapes accepted by the modelled fragment. -/
def jEscChar (e : Char) : Option Char :=
  (jEscTable.find? (fun p => p.1 == e)).map Prod.snd

/-- Parse the body of a JSON string after the opening quote; returns the
string and the input after the closing quote. -/
def parseJStr : List Char → Option (String × List Char)
  | [] => Option.none
  | '"' :: rest => some ("", rest)
  | '\\' :: e :: rest =>
    match jEscChar e with
    | some c =>
      (match parseJStr rest with
       | some (s, r) => some (String.mk (c :: s.data), r)
       | Option.none => Option.none)
    | Option.none => Option.none
  | c :: rest =>
    if c.toNat < 32 then Option.none
    else
      match parseJStr rest with
      | some (s, r) => some (String.mk (c :: s.data), r)
      | Option.none => Option.none

/-- Parse the digit run of a JSON integer whose sign (if any) has already
been consumed; rejects floats, exponents and leading zeros. -/
def parseJNumTail (neg : Bool) (cs1 : List Char) : Option (PyVal × List Char) :=
  let ds := cs1.takeWhile Char.isDigit
  let rest := cs1.dropWhile Char.isDigit
  if ds = [] then Option.none
  else if 1 < ds.length ∧ ds.headD 'x' = '0' then Option.none
  else
    match rest with
    | '.' :: _ => Option.none
    | 'e' :: _ => Option.none
    | 'E' :: _ => Option.none
    | _ =>
      let n : Int := (digitsToNat ds : Int)
      some (PyVal.int (if neg then -n else n), rest)

/-- Parse a JSON integer: an optional minus sign, then digits. -/
def parseJNum (cs : List Char) : Option (PyVal × List Char) :=
  match cs with
  | '-' :: tl => parseJNumTail true tl
  | _ => parseJNumTail false cs

/-- Strip a literal keyword (`null`, `true`, `false`) from the input front. -/
def stripKeyw (kw : String) (cs : List Char) : Option (List Char) :=
  if cs.take kw.data.length = kw.data then some (cs.drop kw.data.length)
  else Option.none

mutual

/-- Parse one JSON value (leading whitespace allowed). -/
def parseJ : Nat → List Char → Option (PyVal × List Char)
  | 0, _ => Option.none
  | fuel + 1, cs =>
    match stripKeyw "null" (jSkipWs cs) with
    | some rest => some (PyVal.none, rest)
    | Option.none =>
    match stripKeyw "true" (jSkipWs cs) with
    | some rest => some (PyVal.bool true, rest)
    | Option.none =>
    match stripKeyw "false" (jSkipWs cs) with
    | some rest => some (PyVal.bool false, rest)
    | Option.none =>
    match jSkipWs cs with
    | '"' :: rest => (parseJStr rest).map fun (s, r) => (PyVal.str s, r)
    | '[' :: rest => (parseJArr fuel rest).map fun (xs, r) => (PyVal.list xs, r)
    | '\x7b' :: rest =>
      (parseJObj fuel rest).map fun (kvs, r) =>
        (PyVal.dict (kvs.foldl (fun d kv => dictInsert d kv.1 kv.2) []), r)
    | cs' => parseJNum cs'

/-- Parse array elements after the opening bracket, including the closing one. -/
def parseJArr : Nat → List Char → Option (List PyVal × List Char)
  | 0, _ => Option.none
  | fuel + 1, cs =>
    match jSkipWs cs with
    | ']' :: rest => some ([], rest)
    | cs' =>
      (parseJ fuel cs').bind fun (v, r) =>
        (parseJArrRest fuel r).map fun (vs, r') => (v :: vs, r')

/-- Parse `, value`-continuations of an array up to the closing bracket. -/
def parseJArrRest : Nat → List Char → Option (List PyVal × List Char)
  | 0, _ => Option.none
  | fuel + 1, cs =>
    match jSkipWs cs with
    | ']' :: rest => some ([], rest)
    | ',' :: rest =>
      (parseJ fuel rest).bind fun (v, r) =>
        (parseJArrRest fuel r).map fun (vs, r') => (v :: vs, r')
    | _ => Option.none

/-- Parse object members after the opening brace, including the closing one. -/
def parseJObj : Nat → List Char → Option (List (String × PyVal) × List Char)
  | 0, _ => Option.none
  | fuel + 1, cs =>
    match jSkipWs cs with
    | '\x7d' :: rest => some ([], rest)
    | '"' :: rest =>
      (parseJStr rest).bind fun (k, r) =>
        match jSkipWs r with
        | ':' :: r2 =>
          (parseJ fuel r2).bind fun (v, r3) =>
            (parseJObjRest fuel r3).map fun (kvs, r4) => ((k, v) :: kvs, r4)
        | _ => Option.none
    | _ => Option.none

/-- Parse `, "key": value`-continuations of an object up to the closing brace. -/
def parseJObjRest : Nat → List Char → Option (List (String × PyVal) × List Char)
  | 0, _ => Option.none
  | fuel + 1, cs =>
    match jSkipWs cs with
    | '\x7d' :: rest => some ([], rest)
    | ',' :: rest =>
      (match jSkipWs rest with
       | '"' :: r =>
         (parseJStr r).bind fun (k, r1) =>
           match jSkipWs r1 with
           | ':' :: r2 =>
             (parseJ fuel r2).bind fun (v, r3) =>
               (parseJObjRest fuel r3).map fun (kvs, r4) => ((k, v) :: kvs, r4)
           | _ => Option.none
       | _ => Option.none)
    | _ => Option.none

end

/-- Model of Python `json.loads` on the exchanged fragment: parse one value,
then require only whitespace to remain; `Option.none` models
`json.JSONDecodeError`. -/
def json_loads (s : String) : Option PyVal :=
  match parseJ (2 * s.data.length + 8) s.data with
  | some (v, rest) => if jSkipWs rest = [] then some v else Option.none
  | Option.none => Option.none

/-- `json.loads` viewed as a raising operation. -/
def json_loads_exc (s : String) : Except PyErr PyVal :=
  match json_loads s with
  | some v => Except.ok v
  | Option.none => Except.error PyErr.jsonDecodeError

/-! ## Agent 1 – `agent1_filter_and_detect` (reply handling)

The gateway call itself is an external collaborator; the classifier's
observable behaviour on a raw reply is its parse-and-repair tail
(`agents.py:60-65`): direct `json.loads`, else `json.loads` of the slice
from the first `{` to the last `}`, whose failure propagates. -/

/-- The fallback slice `raw[raw.find("{") : raw.rfind("}") + 1]` of Agent 1. -/
def agent1_fallback_src (raw : String) : String :=
  pySlice raw (pyFindC raw '\x7b') (pyRFindC raw '\x7d' + 1)

/-- Reply-handling stage of `agent1_filter_and_detect`, as a function of the
raw gateway reply; an `Except.error` models a propagated parse exception. -/
def agent1_filter_and_detect (raw : String) : Except PyErr PyVal :=
  match json_loads raw with
  | some v => Except.ok v
  | Option.none => json_loads_exc (agent1_fallback_src raw)

/-! ## Agent 2 – `agent2_extract_parameters` -/

/-- The user message Agent 2 sends to the gateway (`agents.py:165`):
a fixed prefix followed by `full_text[:12000]`. -/
def agent2_user_message (full_text : String) : String :=
  "Article text (possibly truncated):\n" ++ pyTake full_text 12000

/-- The fallback slice `raw[raw.find("[") : raw.rfind("]") + 1]` of Agent 2. -/
def agent2_fallback_src (raw : String) : String :=
  pySlice raw (pyFindC raw '[') (pyRFindC raw ']' + 1)

/-- Reply-handling stage of `agent2_extract_parameters` (`agents.py:174-179`),
as a function of the raw gateway reply; an `Except.error` models a propagated
parse exception. -/
def agent2_extract_parameters (raw : String) : Except PyErr PyVal :=
  match json_loads raw with
  | some v => Except.ok v
  | Option.none => json_loads_exc (agent2_fallback_src raw)

/-! ## Summarizer – `summarize_mof_for_application` -/

/-- `d.get(k, dflt)` on a value statically known to be a dict. -/
def dictGetD (m : List (String × PyVal)) (k : String) (dflt : PyVal) : PyVal :=
  (dictLookup m k).getD dflt

/-- `v.get(k, dflt)` on an arbitrary value: raises `AttributeError` unless
`v` is a dict. -/
def pyGet (v : PyVal) (k : String) (dflt : PyVal) : Except PyErr PyVal :=
  match v with
  | PyVal.dict kvs => Except.ok ((dictLookup kvs k).getD dflt)
  | _ => Except.error PyErr.attributeError

/-- The local values `summarize_mof_for_application` computes before
formatting (`agents.py:201-221`), in source order. -/
structure Digest where
  name : PyVal
  doi : PyVal
  linker : PyVal
  metal : PyVal
  temp : PyVal
  time_s : PyVal
  steps : PyVal
  sa : PyVal
  tga : PyVal
  ph_min : PyVal
  ph_max : PyVal
  dim : PyVal
  nano : PyVal
  amorph : PyVal
  application : PyVal

/-- Field extraction of `summarize_mof_for_application` (`agents.py:191-221`):
subsections default to `{}`, string fields default to sentinels via `.get`,
and the numeric fields additionally pass through an `or 0` guard. -/
def digest (mof_entry : List (String × PyVal)) : Except PyErr Digest := do
  let ai := dictGetD mof_entry "article_info" (PyVal.dict [])
  let reac := dictGetD mof_entry "reactants" (PyVal.dict [])
  let cond := dictGetD mof_entry "synthesis_conditions" (PyVal.dict [])
  let _morph := dictGetD mof_entry "morphology" (PyVal.dict [])
  let therm := dictGetD mof_entry "thermal_properties" (PyVal.dict [])
  let surf := dictGetD mof_entry "surface_properties" (PyVal.dict [])
  let chem := dictGetD mof_entry "chemical_properties" (PyVal.dict [])
  let struct := dictGetD mof_entry "structure" (PyVal.dict [])
  let appl := dictGetD mof_entry "application" (PyVal.dict [])
  let name ← pyGet ai "material_name" (PyVal.str "unnamed material")
  let doi ← pyGet ai "doi" (PyVal.str "not_specified")
  let linker ← pyGet reac "organic_linker_name" (PyVal.str "not_specified")
  let metal ← pyGet reac "metal_node_name" (PyVal.str "not_specified")
  let temp := pyOr (← pyGet cond "reaction_temperature_celsius" (PyVal.int 0)) (PyVal.int 0)
  let time_s := pyOr (← pyGet cond "reaction_time_seconds" (PyVal.int 0)) (PyVal.int 0)
  let steps := pyOr (← pyGet cond "stepwise_segmentation" (PyVal.int 0)) (PyVal.int 0)
  let sa := pyOr (← pyGet surf "surface_area_m2_per_g" (PyVal.int 0)) (PyVal.int 0)
  let tga := pyOr (← pyGet therm "breakdown_temperature_celsius" (PyVal.int 0)) (PyVal.int 0)
  let ph_min := pyOr (← pyGet chem "ph_range_min" (PyVal.int 0)) (PyVal.int 0)
  let ph_max := pyOr (← pyGet chem "ph_range_max" (PyVal.int 0)) (PyVal.int 0)
  let dim ← pyGet struct "dimensionality" (PyVal.str "not_specified")
  let nano ← pyGet struct "nanocrystalline" (PyVal.str "not_specified")
  let amorph ← pyGet struct "amorphous" (PyVal.str "not_specified")
  let application ← pyGet appl "application" (PyVal.str "not_specified")
  pure ⟨name, doi, linker, metal, temp, time_s, steps, sa, tga,
    ph_min, ph_max, dim, nano, amorph, application⟩

/-- The `summary_lines` list of `summarize_mof_for_application`
(`agents.py:223-232`), with the f-strings expanded. -/
def renderLines (d : Digest) : List String :=
  ["Material name: " ++ pyStr d.name ++ " (DOI: " ++ pyStr d.doi ++ ").",
   "Metal node: " ++ pyStr d.metal ++ "; organic linker: " ++ pyStr d.linker ++ ".",
   "Synthesis: temperature ~" ++ pyStr d.temp ++ " °C, time ~" ++ pyStr d.time_s
     ++ " s, stepwise segmentation = " ++ pyStr d.steps ++ ".",
   "Surface area: " ++ pyStr d.sa ++ " m2/g (higher is better for adsorption).",
   "Thermal stability (breakdown temperature): ~" ++ pyStr d.tga ++ " °C.",
   "Reported pH stability range: " ++ pyStr d.ph_min ++ "–" ++ pyStr d.ph_max ++ ".",
   "Structure: dimensionality = " ++ pyStr d.dim ++ ", nanocrystalline = "
     ++ pyStr d.nano ++ ", amorphous = " ++ pyStr d.amorph ++ ".",
   "Reported primary application: " ++ pyStr d.application ++ "."]

/-- `summarize_mof_for_application` (`agents.py:186-234`): extract the digest
fields and join the eight sentences with single spaces. -/
def summarize_mof_for_application (mof_entry : List (String × PyVal)) :
    Except PyErr String := do
  let d ← digest mof_entry
  pure (pyJoin " " (renderLines d))

/-! ## Agent 3 – `agent3_predict_applications` (reply handling) -/

/-- `re.sub(r"^```[a-zA-Z]*\n", "", s)`: remove an opening code fence when
the backticks are followed by letters and a newline. -/
def stripFenceOpen (s : String) : String :=
  if s.data.take 3 = "```".data then
    match (s.data.drop 3).dropWhile Char.isAlpha with
    | '\n' :: r2 => String.mk r2
    | _ => s
  else s

/-- The inner `try_parse` of Agent 3 (`agents.py:366-372`): strip whitespace,
strip a fenced-code-block marker if present, then `json.loads`. -/
def try_parse (s : String) : Except PyErr PyVal :=
  let s1 := pyStrip s
  let s2 :=
    if s1.data.take 3 = "```".data then
      let s3 := stripFenceOpen s1
      if s3.data.drop (s3.data.length - 3) = "```".data then
        String.mk (s3.data.take (s3.data.length - 3))
      else s3
    else s1
  json_loads_exc s2

/-- `re.search(r"\{.*\}", raw, re.S)`: with a greedy `.*` in DOTALL mode this
matches from the first `{` to the last `}`, provided the latter comes after
the former; otherwise there is no match. -/
def braceSearch (raw : String) : Option String :=
  match findIdxA raw.data '\x7b' 0 with
  | some i =>
    (match findIdxA raw.data.reverse '\x7d' 0 with
     | some jr =>
       let j := raw.data.length - 1 - jr
       if i < j then some (String.mk ((raw.data.drop i).take (j + 1 - i)))
       else Option.none
     | Option.none => Option.none)
  | Option.none => Option.none

/-- Reply-handling stage of `agent3_predict_applications`
(`agents.py:374-390`), as a function of the raw gateway reply: direct
`try_parse`; on failure, retry on the regex match; on total failure return a
failure dict with `parse_error` and `raw_response` instead of raising.  (The
Python `parse_error` message interpolates the exception text; the model uses
the fixed prefix.) -/
def agent3_predict_applications (raw : String) : Except PyErr PyVal :=
  match try_parse raw with
  | Except.ok v => Except.ok v
  | Except.error _ =>
    match braceSearch raw with
    | some sub =>
      (match try_parse sub with
       | Except.ok v => Except.ok v
       | Except.error _ =>
         Except.ok (PyVal.dict
           [("parse_error", PyVal.str "Could not parse Agent 3 JSON: Expecting value"),
            ("raw_response", PyVal.str raw)]))
    | Option.none =>
      Except.ok (PyVal.dict
        [("parse_error", PyVal.str "No JSON object found in Agent 3 response."),
         ("raw_response", PyVal.str raw)])

/-! ## The suitability remap (Agent 3 system prompt)

The scoring formula is fixed by the system prompt (`agents.py:284-293`):
`suitability_score_percent = round(0.6 * raw_score + 20)` clipped to
`[0, 100]`.  It is transcribed here over `ℚ` with Python's `round`
(half-to-even) semantics. -/

/-- Python `round` on an exact rational: nearest integer, ties to even. -/
def pyRound (q : ℚ) : ℤ :=
  if q - (⌊q⌋ : ℚ) < 1/2 then ⌊q⌋
  else if 1/2 < q - (⌊q⌋ : ℚ) then ⌊q⌋ + 1
  else if 2 ∣ ⌊q⌋ then ⌊q⌋ else ⌊q⌋ + 1

/-- Clipping to a closed interval, as in "clipped to [0, 100]". -/
def pyClip (x lo hi : ℤ) : ℤ := min hi (max lo x)

/-- The final suitability remap fixed by the Agent 3 prompt:
`round(0.6 * raw_score + 20)` clipped to `[0, 100]`. -/
def suitability_score_percent (raw_score : ℚ) : ℤ :=
  pyClip (pyRound ((0.6 : ℚ) * raw_score + 20)) 0 100

/-! ## Shape predicates and concrete records used by the claims -/

/-- Whether a value is a Python bool. -/
def isBoolB : PyVal → Bool
  | PyVal.bool _ => true
  | _ => false

/-- Whether a value is a Python list (a JSON sequence). -/
def isListB : PyVal → Bool
  | PyVal.list _ => true
  | _ => false

/-- Modelled from the spec: a ScoringResult is a mapping with the keys
`application_candidates`, `best_application` and `uncertainties` (§3, §6). -/
def scoringResultShapedB : PyVal → Bool
  | PyVal.dict kvs =>
    (dictLookup kvs "application_candidates").isSome
      && (dictLookup kvs "best_application").isSome
      && (dictLookup kvs "uncertainties").isSome
  | _ => false

/-- The Agent 3 failure-object shape: a mapping with `parse_error` and
`raw_response`. -/
def failureShapedB : PyVal → Bool
  | PyVal.dict kvs =>
    (dictLookup kvs "parse_error").isSome && (dictLookup kvs "raw_response").isSome
  | _ => false

/-- A subsection key is absent or bound to a dict (so that `.get` on the
fetched value cannot raise). -/
def subsectionOkB (m : List (String × PyVal)) (k : String) : Bool :=
  match dictLookup m k with
  | Option.none => true
  | some (PyVal.dict _) => true
  | some _ => false

/-- The fixed sentence openings of the eight digest sentences, in order. -/
def sentenceLeads : List String :=
  ["Material name: ", "Metal node: ", "Synthesis: temperature ~",
   "Surface area: ", "Thermal stability (breakdown temperature): ~",
   "Reported pH stability range: ", "Structure: dimensionality = ",
   "Reported primary application: "]

/-- The MaterialRecord of the end-to-end scenario: N3-COF with surface area
1200, breakdown temperature 450 and pH range 3–11. -/
def c4_entry : List (String × PyVal) :=
  [("article_info", PyVal.dict [("material_name", PyVal.str "N3-COF")]),
   ("surface_properties", PyVal.dict [("surface_area_m2_per_g", PyVal.int 1200)]),
   ("thermal_properties", PyVal.dict [("breakdown_temperature_celsius", PyVal.int 450)]),
   ("chemical_properties", PyVal.dict [("ph_range_min", PyVal.int 3), ("ph_range_max", PyVal.int 11)])]

/-! ## General lemmas about the embedding -/

theorem data_append (s t : String) : (s ++ t).data = s.data ++ t.data := rfl

theorem pyOr_int_zero (v : PyVal) :
    (truthy v = false → pyOr v (PyVal.int 0) = PyVal.int 0) ∧
    (truthy v = true → pyOr v (PyVal.int 0) = v) := by
  unfold pyOr
  constructor <;> intro h <;> simp [h]

theorem pyRound_ge_floor (q : ℚ) : ⌊q⌋ ≤ pyRound q := by
  unfold pyRound
  split_ifs <;> omega

theorem pyRound_le_floor_add_one (q : ℚ) : pyRound q ≤ ⌊q⌋ + 1 := by
  unfold pyRound
  split_ifs <;> omega

theorem pyRound_intCast (n : ℤ) : pyRound (n : ℚ) = n := by
  unfold pyRound
  rw [Int.floor_intCast]
  have h : (n : ℚ) - (n : ℚ) = 0 := by ring
  rw [h]
  norm_num

theorem dictGetD_dict (m : List (String × PyVal)) (k : String)
    (h : subsectionOkB m k = true) :
    ∃ kvs, dictGetD m k (PyVal.dict []) = PyVal.dict kvs := by
  unfold subsectionOkB at h
  unfold dictGetD
  cases hl : dictLookup m k with
  | none => exact ⟨[], rfl⟩
  | some v =>
    rw [hl] at h
    cases v with
    | dict kvs => exact ⟨kvs, rfl⟩
    | none => simp at h
    | bool b => simp at h
    | int n => simp at h
    | str s => simp at h
    | list xs => simp at h

theorem digest_eval (m ai reac cond therm surf chem struct appl : List (String × PyVal))
    (hai : dictGetD m "article_info" (PyVal.dict []) = PyVal.dict ai)
    (hreac : dictGetD m "reactants" (PyVal.dict []) = PyVal.dict reac)
    (hcond : dictGetD m "synthesis_conditions" (PyVal.dict []) = PyVal.dict cond)
    (htherm : dictGetD m "thermal_properties" (PyVal.dict []) = PyVal.dict therm)
    (hsurf : dictGetD m "surface_properties" (PyVal.dict []) = PyVal.dict surf)
    (hchem : dictGetD m "chemical_properties" (PyVal.dict []) = PyVal.dict chem)
    (hstruct : dictGetD m "structure" (PyVal.dict []) = PyVal.dict struct)
    (happl : dictGetD m "application" (PyVal.dict []) = PyVal.dict appl) :
    digest m = Except.ok
      ⟨dictGetD ai "material_name" (PyVal.str "unnamed material"),
       dictGetD ai "doi" (PyVal.str "not_specified"),
       dictGetD reac "organic_linker_name" (PyVal.str "not_specified"),
       dictGetD reac "metal_node_name" (PyVal.str "not_specified"),
       pyOr (dictGetD cond "reaction_temperature_celsius" (PyVal.int 0)) (PyVal.int 0),
       pyOr (dictGetD cond "reaction_time_seconds" (PyVal.int 0)) (PyVal.int 0),
       pyOr (dictGetD cond "stepwise_segmentation" (PyVal.int 0)) (PyVal.int 0),
       pyOr (dictGetD surf "surface_area_m2_per_g" (PyVal.int 0)) (PyVal.int 0),
       pyOr (dictGetD therm "breakdown_temperature_celsius" (PyVal.int 0)) (PyVal.int 0),
       pyOr (dictGetD chem "ph_range_min" (PyVal.int 0)) (PyVal.int 0),
       pyOr (dictGetD chem "ph_range_max" (PyVal.int 0)) (PyVal.int 0),
       dictGetD struct "dimensionality" (PyVal.str "not_specified"),
       dictGetD struct "nanocrystalline" (PyVal.str "not_specified"),
       dictGetD struct "amorphous" (PyVal.str "not_specified"),
       dictGetD appl "application" (PyVal.str "not_specified")⟩ := by
  unfold digest
  rw [hai, hreac, hcond, htherm, hsurf, hchem, hstruct, happl]
  rfl

/-! ## C2 – the suitability remap -/

/-- C2: the suitability remap `round(0.6*raw_score + 20)` clamped to
`[0, 100]` yields 20 at `raw_score = 0` and 80 at `raw_score = 100`, and for
every `raw_score` in `[0, 100]` the mapped score lies in `[20, 80]`, never
reaching 0 or 100. -/
theorem c2_suitability_remap (r : ℚ) (h0 : 0 ≤ r) (h1 : r ≤ 100) :
    suitability_score_percent 0 = 20 ∧ suitability_score_percent 100 = 80 ∧
    20 ≤ suitability_score_percent r ∧ suitability_score_percent r ≤ 80 := by
  have hz : suitability_score_percent 0 = 20 := by
    unfold suitability_score_percent
    have e : (0.6 : ℚ) * 0 + 20 = ((20 : ℤ) : ℚ) := by norm_num
    rw [e, pyRound_intCast]
    rfl
  have hh : suitability_score_percent 100 = 80 := by
    unfold suitability_score_percent
    have e : (0.6 : ℚ) * 100 + 20 = ((80 : ℤ) : ℚ) := by norm_num
    rw [e, pyRound_intCast]
    rfl
  refine ⟨hz, hh, ?_, ?_⟩ <;>
  · unfold suitability_score_percent pyClip
    have hx1 : (20 : ℚ) ≤ (0.6 : ℚ) * r + 20 := by nlinarith
    have hx2 : (0.6 : ℚ) * r + 20 ≤ 80 := by nlinarith
    have hf1 : (20 : ℤ) ≤ ⌊(0.6 : ℚ) * r + 20⌋ := by
      rw [Int.le_floor]
      exact_mod_cast hx1
    have hf2 : ⌊(0.6 : ℚ) * r + 20⌋ ≤ (80 : ℤ) := by
      have := Int.floor_le_floor hx2
      rwa [show ⌊(80 : ℚ)⌋ = (80 : ℤ) from by norm_num] at this
    have hlo : (20 : ℤ) ≤ pyRound ((0.6 : ℚ) * r + 20) :=
      le_trans hf1 (pyRound_ge_floor _)
    have hhi : pyRound ((0.6 : ℚ) * r + 20) ≤ 80 := by
      rcases lt_or_eq_of_le hf2 with hlt | heq
      · have := pyRound_le_floor_add_one ((0.6 : ℚ) * r + 20)
        omega
      · have hxge : ((80 : ℤ) : ℚ) ≤ (0.6 : ℚ) * r + 20 := by
          rw [← heq]
          exact Int.floor_le _
        have hxeq : (0.6 : ℚ) * r + 20 = ((80 : ℤ) : ℚ) := by
          apply le_antisymm _ hxge
          exact_mod_cast hx2
        have : pyRound ((0.6 : ℚ) * r + 20) = 80 := by
          rw [hxeq, pyRound_intCast]
        omega
    omega

/-- C2 witness: the remap evaluated with `raw_score = 50` in `[0, 100]`. -/
theorem c2_suitability_remap_witness :
    suitability_score_percent 0 = 20 ∧ suitability_score_percent 100 = 80 ∧
    20 ≤ suitability_score_percent 50 ∧ suitability_score_percent 50 ≤ 80 :=
  c2_suitability_remap 50 (by norm_num) (by norm_num)

/-! ## C5 – Agent 2 input truncation -/

/-- C5: the user message Agent 2 sends is a fixed prefix followed by
`full_text[:12000]`: at most 12000 characters of `full_text`, always a
prefix of it, and all of it when it is short enough — truncation is silent,
never an error. -/
theorem c5_truncation (ft : String) :
    agent2_user_message ft = "Article text (possibly truncated):\n" ++ pyTake ft 12000 ∧
    (pyTake ft 12000).data.length ≤ 12000 ∧
    (pyTake ft 12000).data <+: ft.data ∧
    (ft.data.length ≤ 12000 → pyTake ft 12000 = ft) := by
  refine ⟨rfl, ?_, ?_, ?_⟩
  · unfold pyTake
    simp [List.length_take]
  · unfold pyTake
    exact List.take_prefix 12000 ft.data
  · intro h
    unfold pyTake
    rw [List.take_of_length_le h]

/-- C5 witness: the truncation facts at a concrete short input. -/
theorem c5_truncation_witness :
    agent2_user_message "short article text" =
      "Article text (possibly truncated):\n" ++ pyTake "short article text" 12000 ∧
    (pyTake "short article text" 12000).data.length ≤ 12000 ∧
    (pyTake "short article text" 12000).data <+: "short article text".data ∧
    ("short article text".data.length ≤ 12000 → pyTake "short article text" 12000 = "short article text") :=
  c5_truncation "short article text"

/-! ## C6 – Agent 1 result shape -/

/-- C6 counterexample: on the reply `{"is_mof_paper": 1}` the classifier
returns, without raising, a mapping whose `is_mof_paper` field is the
integer 1 — not a boolean — and which lacks the other three schema fields;
the claim that a returned mapping always carries a boolean `is_mof_paper`
is false. -/
theorem c6_counterexample :
    agent1_filter_and_detect "\x7b\"is_mof_paper\": 1\x7d" =
      Except.ok (PyVal.dict [("is_mof_paper", PyVal.int 1)]) ∧
    isBoolB (PyVal.int 1) = false := ⟨rfl, rfl⟩

/-- C6 amended: the classifier returns whatever JSON value the reply parses
to, with no validation of `is_mof_paper` or of field presence; when both the
direct parse and the first-`{`-to-last-`}` slice fail to parse, it raises a
parse failure rather than returning a partial record. -/
theorem c6_amended (raw : String) :
    (∀ v, json_loads raw = some v → agent1_filter_and_detect raw = Except.ok v) ∧
    (json_loads raw = Option.none → json_loads (agent1_fallback_src raw) = Option.none →
      agent1_filter_and_detect raw = Except.error PyErr.jsonDecodeError) := by
  constructor
  · intro v hv
    unfold agent1_filter_and_detect
    rw [hv]
  · intro h1 h2
    unfold agent1_filter_and_detect
    rw [h1]
    unfold json_loads_exc
    rw [h2]

/-- C6 witness: both parse attempts fail on the reply `"nothing"`, so the
classifier raises. -/
theorem c6_amended_witness :
    (∀ v, json_loads "nothing" = some v →
      agent1_filter_and_detect "nothing" = Except.ok v) ∧
    (json_loads "nothing" = Option.none →
      json_loads (agent1_fallback_src "nothing") = Option.none →
      agent1_filter_and_detect "nothing" = Except.error PyErr.jsonDecodeError) :=
  c6_amended "nothing"

/-! ## C7 – Agent 2 result shape -/

/-- C7 counterexample: on the reply `{}` the extractor returns, without
raising, the empty mapping — not a sequence — so the claim that a successful
parse always yields a sequence of MaterialRecord-shaped mappings is false. -/
theorem c7_counterexample :
    agent2_extract_parameters "\x7b\x7d" = Except.ok (PyVal.dict []) ∧
    isListB (PyVal.dict []) = false := ⟨rfl, rfl⟩

/-- C7 amended: the extractor returns whatever JSON value the reply parses
to (a sequence when the reply follows the array schema); the empty sequence
is a valid successful result distinct from a parse failure, and when both the
direct parse and the first-`[`-to-last-`]` slice fail it raises rather than
returning a fallback value. -/
theorem c7_amended (raw : String) :
    (∀ v, json_loads raw = some v → agent2_extract_parameters raw = Except.ok v) ∧
    (json_loads raw = Option.none → json_loads (agent2_fallback_src raw) = Option.none →
      agent2_extract_parameters raw = Except.error PyErr.jsonDecodeError) ∧
    agent2_extract_parameters "[]" = Except.ok (PyVal.list []) := by
  refine ⟨?_, ?_, rfl⟩
  · intro v hv
    unfold agent2_extract_parameters
    rw [hv]
  · intro h1 h2
    unfold agent2_extract_parameters
    rw [h1]
    unfold json_loads_exc
    rw [h2]

/-- C7 witness: both parse attempts fail on the reply `"nope"`, so the
extractor raises; the empty array still parses to the empty sequence. -/
theorem c7_amended_witness :
    (∀ v, json_loads "nope" = some v →
      agent2_extract_parameters "nope" = Except.ok v) ∧
    (json_loads "nope" = Option.none →
      json_loads (agent2_fallback_src "nope") = Option.none →
      agent2_extract_parameters "nope" = Except.error PyErr.jsonDecodeError) ∧
    agent2_extract_parameters "[]" = Except.ok (PyVal.list []) :=
  c7_amended "nope"

/-! ## C1 – Agent 3 never raises -/

/-- C1 counterexample: on the reply `7` Agent 3 returns, without raising, the
integer 7 — neither a well-formed ScoringResult mapping nor a
`parse_error`/`raw_response` failure object — so the claim that the result is
always one of those two shapes is false. -/
theorem c1_counterexample :
    agent3_predict_applications "7" = Except.ok (PyVal.int 7) ∧
    scoringResultShapedB (PyVal.int 7) = false ∧
    failureShapedB (PyVal.int 7) = false := ⟨rfl, rfl, rfl⟩

/-- C1 amended: Agent 3 never raises: it always returns a value; when the
direct parse (after fence stripping) and the regex fallback both fail, that
value is a mapping containing `parse_error` and `raw_response`, with
`raw_response` equal to the original raw reply; otherwise it is the parsed
JSON value of the reply (not validated as a ScoringResult). -/
theorem c1_amended (raw : String) :
    (∃ v, agent3_predict_applications raw = Except.ok v) ∧
    (∀ e, try_parse raw = Except.error e →
      (∀ sub, braceSearch raw = some sub → ∃ e2, try_parse sub = Except.error e2) →
      ∃ kvs, agent3_predict_applications raw = Except.ok (PyVal.dict kvs) ∧
        (dictLookup kvs "parse_error").isSome = true ∧
        dictLookup kvs "raw_response" = some (PyVal.str raw)) := by
  constructor
  · cases h : try_parse raw with
    | ok v => exact ⟨v, by simp only [agent3_predict_applications, h]⟩
    | error e =>
      cases hb : braceSearch raw with
      | some sub =>
        cases hs : try_parse sub with
        | ok v =>
          exact ⟨v, by simp only [agent3_predict_applications, h, hb, hs]⟩
        | error e2 =>
          exact ⟨PyVal.dict
            [("parse_error", PyVal.str "Could not parse Agent 3 JSON: Expecting value"),
             ("raw_response", PyVal.str raw)],
            by simp only [agent3_predict_applications, h, hb, hs]⟩
      | none =>
        exact ⟨PyVal.dict
          [("parse_error", PyVal.str "No JSON object found in Agent 3 response."),
           ("raw_response", PyVal.str raw)],
          by simp only [agent3_predict_applications, h, hb]⟩
  · intro e he hsub
    cases hb : braceSearch raw with
    | some sub =>
      obtain ⟨e2, he2⟩ := hsub sub hb
      refine ⟨[("parse_error", PyVal.str "Could not parse Agent 3 JSON: Expecting value"),
               ("raw_response", PyVal.str raw)], ?_, rfl, rfl⟩
      simp only [agent3_predict_applications, he, hb, he2]
    | none =>
      refine ⟨[("parse_error", PyVal.str "No JSON object found in Agent 3 response."),
               ("raw_response", PyVal.str raw)], ?_, rfl, rfl⟩
      simp only [agent3_predict_applications, he, hb]

/-- C1 witness: the amended claim evaluated at the unparseable reply
`"no json here"`. -/
theorem c1_amended_witness :
    (∃ v, agent3_predict_applications "no json here" = Except.ok v) ∧
    (∀ e, try_parse "no json here" = Except.error e →
      (∀ sub, braceSearch "no json here" = some sub →
        ∃ e2, try_parse sub = Except.error e2) →
      ∃ kvs, agent3_predict_applications "no json here" = Except.ok (PyVal.dict kvs) ∧
        (dictLookup kvs "parse_error").isSome = true ∧
        dictLookup kvs "raw_response" = some (PyVal.str "no json here")) :=
  c1_amended "no json here"

/-! ## C3 – totality of the Summarizer -/

/-- C3 counterexample: on a mapping whose `article_info` subsection is bound
to a non-mapping value the summarizer raises an `AttributeError` (Python
calls `.get` on the fetched value), so the claim that it never raises on
every input mapping is false. -/
theorem c3_counterexample :
    summarize_mof_for_application [("article_info", PyVal.int 0)] =
      Except.error PyErr.attributeError := rfl

/-- C3 amended: on every input mapping whose present subsection values are
themselves mappings — in particular on any MaterialRecord missing arbitrary
subsections or keys — the summarizer makes no external call, never raises,
and returns a non-empty string of exactly eight fixed-order sentences with
sentinel defaults substituted for missing fields. -/
theorem c3_amended (m : List (String × PyVal))
    (h1 : subsectionOkB m "article_info" = true)
    (h2 : subsectionOkB m "reactants" = true)
    (h3 : subsectionOkB m "synthesis_conditions" = true)
    (h4 : subsectionOkB m "thermal_properties" = true)
    (h5 : subsectionOkB m "surface_properties" = true)
    (h6 : subsectionOkB m "chemical_properties" = true)
    (h7 : subsectionOkB m "structure" = true)
    (h8 : subsectionOkB m "application" = true) :
    ∃ d, digest m = Except.ok d ∧
      summarize_mof_for_application m = Except.ok (pyJoin " " (renderLines d)) ∧
      (renderLines d).length = 8 ∧
      List.Forall₂ (fun p l => p.data <+: l.data) sentenceLeads (renderLines d) ∧
      pyJoin " " (renderLines d) ≠ "" := by
  obtain ⟨ai, hai⟩ := dictGetD_dict m "article_info" h1
  obtain ⟨reac, hreac⟩ := dictGetD_dict m "reactants" h2
  obtain ⟨cond, hcond⟩ := dictGetD_dict m "synthesis_conditions" h3
  obtain ⟨therm, htherm⟩ := dictGetD_dict m "thermal_properties" h4
  obtain ⟨surf, hsurf⟩ := dictGetD_dict m "surface_properties" h5
  obtain ⟨chem, hchem⟩ := dictGetD_dict m "chemical_properties" h6
  obtain ⟨struct, hstruct⟩ := dictGetD_dict m "structure" h7
  obtain ⟨appl, happl⟩ := dictGetD_dict m "application" h8
  have hD := digest_eval m ai reac cond therm surf chem struct appl
    hai hreac hcond htherm hsurf hchem hstruct happl
  refine ⟨_, hD, ?_, rfl, ?_, ?_⟩
  · unfold summarize_mof_for_application
    rw [hD]
    rfl
  · simp only [sentenceLeads, renderLines]
    refine List.Forall₂.cons ?_ (List.Forall₂.cons ?_ (List.Forall₂.cons ?_
      (List.Forall₂.cons ?_ (List.Forall₂.cons ?_ (List.Forall₂.cons ?_
      (List.Forall₂.cons ?_ (List.Forall₂.cons ?_ List.Forall₂.nil))))))) <;>
    · simp only [data_append, List.append_assoc]
      exact List.prefix_append _ _
  · intro hq
    have hpre : "Material name: ".data <+: (pyJoin " " (renderLines
        ⟨dictGetD ai "material_name" (PyVal.str "unnamed material"),
         dictGetD ai "doi" (PyVal.str "not_specified"),
         dictGetD reac "organic_linker_name" (PyVal.str "not_specified"),
         dictGetD reac "metal_node_name" (PyVal.str "not_specified"),
         pyOr (dictGetD cond "reaction_temperature_celsius" (PyVal.int 0)) (PyVal.int 0),
         pyOr (dictGetD cond "reaction_time_seconds" (PyVal.int 0)) (PyVal.int 0),
         pyOr (dictGetD cond "stepwise_segmentation" (PyVal.int 0)) (PyVal.int 0),
         pyOr (dictGetD surf "surface_area_m2_per_g" (PyVal.int 0)) (PyVal.int 0),
         pyOr (dictGetD therm "breakdown_temperature_celsius" (PyVal.int 0)) (PyVal.int 0),
         pyOr (dictGetD chem "ph_range_min" (PyVal.int 0)) (PyVal.int 0),
         pyOr (dictGetD chem "ph_range_max" (PyVal.int 0)) (PyVal.int 0),
         dictGetD struct "dimensionality" (PyVal.str "not_specified"),
         dictGetD struct "nanocrystalline" (PyVal.str "not_specified"),
         dictGetD struct "amorphous" (PyVal.str "not_specified"),
         dictGetD appl "application" (PyVal.str "not_specified")⟩)).data := by
      simp only [pyJoin, renderLines, data_append, List.append_assoc]
      exact List.prefix_append _ _
    rw [hq] at hpre
    rw [show ("" : String).data = ([] : List Char) from rfl] at hpre
    exact absurd (List.prefix_nil.mp hpre) (by decide)

/-- C3 witness: the amended claim at the empty mapping (every subsection
missing), which digests to all-sentinel sentences. -/
theorem c3_amended_witness :
    ∃ d, digest [] = Except.ok d ∧
      summarize_mof_for_application [] = Except.ok (pyJoin " " (renderLines d)) ∧
      (renderLines d).length = 8 ∧
      List.Forall₂ (fun p l => p.data <+: l.data) sentenceLeads (renderLines d) ∧
      pyJoin " " (renderLines d) ≠ "" :=
  c3_amended [] rfl rfl rfl rfl rfl rfl rfl rfl

/-! ## C4 – the end-to-end digest scenario -/

set_option maxRecDepth 100000 in
/-- C4: the MaterialRecord with `material_name = "N3-COF"`, surface area
1200, breakdown temperature 450 and pH range 3–11, passed through the
summarizer, yields a string containing the substrings "N3-COF", "1200",
"450" and "3–11". -/
theorem c4_end_to_end :
    ∃ s, summarize_mof_for_application c4_entry = Except.ok s ∧
      "N3-COF".data <:+: s.data ∧ "1200".data <:+: s.data ∧
      "450".data <:+: s.data ∧ "3–11".data <:+: s.data :=
  ⟨_, rfl, by decide, by decide, by decide, by decide⟩

/-! ## C9 – the `unnamed material` default -/

/-- C9: when `article_info` is present but lacks `material_name`, the
summarizer defaults the name to `"unnamed material"` (not the
`"not_specified"` sentinel), so the digest starts with
"Material name: unnamed material ". -/
theorem c9_unnamed_material (m : List (String × PyVal)) (ai : List (String × PyVal))
    (hai : dictLookup m "article_info" = some (PyVal.dict ai))
    (hname : dictLookup ai "material_name" = Option.none)
    (h2 : subsectionOkB m "reactants" = true)
    (h3 : subsectionOkB m "synthesis_conditions" = true)
    (h4 : subsectionOkB m "thermal_properties" = true)
    (h5 : subsectionOkB m "surface_properties" = true)
    (h6 : subsectionOkB m "chemical_properties" = true)
    (h7 : subsectionOkB m "structure" = true)
    (h8 : subsectionOkB m "application" = true) :
    ∃ s, summarize_mof_for_application m = Except.ok s ∧
      "Material name: unnamed material ".data <+: s.data := by
  have hai' : dictGetD m "article_info" (PyVal.dict []) = PyVal.dict ai := by
    unfold dictGetD
    rw [hai]
    rfl
  obtain ⟨reac, hreac⟩ := dictGetD_dict m "reactants" h2
  obtain ⟨cond, hcond⟩ := dictGetD_dict m "synthesis_conditions" h3
  obtain ⟨therm, htherm⟩ := dictGetD_dict m "thermal_properties" h4
  obtain ⟨surf, hsurf⟩ := dictGetD_dict m "surface_properties" h5
  obtain ⟨chem, hchem⟩ := dictGetD_dict m "chemical_properties" h6
  obtain ⟨struct, hstruct⟩ := dictGetD_dict m "structure" h7
  obtain ⟨appl, happl⟩ := dictGetD_dict m "application" h8
  have hD := digest_eval m ai reac cond therm surf chem struct appl
    hai' hreac hcond htherm hsurf hchem hstruct happl
  have hnm : dictGetD ai "material_name" (PyVal.str "unnamed material") =
      PyVal.str "unnamed material" := by
    unfold dictGetD
    rw [hname]
    rfl
  refine ⟨pyJoin " " (renderLines
    ⟨dictGetD ai "material_name" (PyVal.str "unnamed material"),
     dictGetD ai "doi" (PyVal.str "not_specified"),
     dictGetD reac "organic_linker_name" (PyVal.str "not_specified"),
     dictGetD reac "metal_node_name" (PyVal.str "not_specified"),
     pyOr (dictGetD cond "reaction_temperature_celsius" (PyVal.int 0)) (PyVal.int 0),
     pyOr (dictGetD cond "reaction_time_seconds" (PyVal.int 0)) (PyVal.int 0),
     pyOr (dictGetD cond "stepwise_segmentation" (PyVal.int 0)) (PyVal.int 0),
     pyOr (dictGetD surf "surface_area_m2_per_g" (PyVal.int 0)) (PyVal.int 0),
     pyOr (dictGetD therm "breakdown_temperature_celsius" (PyVal.int 0)) (PyVal.int 0),
     pyOr (dictGetD chem "ph_range_min" (PyVal.int 0)) (PyVal.int 0),
     pyOr (dictGetD chem "ph_range_max" (PyVal.int 0)) (PyVal.int 0),
     dictGetD struct "dimensionality" (PyVal.str "not_specified"),
     dictGetD struct "nanocrystalline" (PyVal.str "not_specified"),
     dictGetD struct "amorphous" (PyVal.str "not_specified"),
     dictGetD appl "application" (PyVal.str "not_specified")⟩), ?_, ?_⟩
  · unfold summarize_mof_for_application
    rw [hD]
    rfl
  · have key : ∀ (X R : String),
        "Material name: unnamed material ".data <+:
          (("Material name: " ++ "unnamed material" ++ " (DOI: " ++ X ++ ").") ++ " " ++ R).data := by
      intro X R
      refine ⟨(("(DOI: " ++ X ++ ").") ++ " " ++ R).data, ?_⟩
      simp [data_append, List.append_assoc, List.cons_append, List.nil_append]
    rw [hnm]
    exact key _ _

/-- C9 witness: the default evaluated at a record whose `article_info` is the
empty mapping. -/
theorem c9_unnamed_material_witness :
    ∃ s, summarize_mof_for_application [("article_info", PyVal.dict [])] = Except.ok s ∧
      "Material name: unnamed material ".data <+: s.data :=
  c9_unnamed_material [("article_info", PyVal.dict [])] [] rfl rfl rfl rfl rfl rfl rfl rfl rfl

/-! ## C10 – the `or 0` guard on numeric digest fields -/

/-- C10: in every record whose digest computes, each of the seven numeric
digest lookups (reaction temperature, reaction time, stepwise segmentation,
surface area, breakdown temperature, pH min, pH max) coerces a falsy found
value to the integer 0 via the `or 0` guard, and passes a truthy value —
numeric or not — through unchanged into the digest. -/
theorem c10_falsy_guard (m : List (String × PyVal))
    (cond surf therm chem : List (String × PyVal))
    (hc : dictLookup m "synthesis_conditions" = some (PyVal.dict cond))
    (hsf : dictLookup m "surface_properties" = some (PyVal.dict surf))
    (htm : dictLookup m "thermal_properties" = some (PyVal.dict therm))
    (hcm : dictLookup m "chemical_properties" = some (PyVal.dict chem))
    (o1 : subsectionOkB m "article_info" = true)
    (o2 : subsectionOkB m "reactants" = true)
    (o3 : subsectionOkB m "structure" = true)
    (o4 : subsectionOkB m "application" = true)
    (d : Digest) (hd : digest m = Except.ok d) :
    (∀ v, dictLookup cond "reaction_temperature_celsius" = some v →
       (truthy v = false → d.temp = PyVal.int 0) ∧ (truthy v = true → d.temp = v)) ∧
    (∀ v, dictLookup cond "reaction_time_seconds" = some v →
       (truthy v = false → d.time_s = PyVal.int 0) ∧ (truthy v = true → d.time_s = v)) ∧
    (∀ v, dictLookup cond "stepwise_segmentation" = some v →
       (truthy v = false → d.steps = PyVal.int 0) ∧ (truthy v = true → d.steps = v)) ∧
    (∀ v, dictLookup surf "surface_area_m2_per_g" = some v →
       (truthy v = false → d.sa = PyVal.int 0) ∧ (truthy v = true → d.sa = v)) ∧
    (∀ v, dictLookup therm "breakdown_temperature_celsius" = some v →
       (truthy v = false → d.tga = PyVal.int 0) ∧ (truthy v = true → d.tga = v)) ∧
    (∀ v, dictLookup chem "ph_range_min" = some v →
       (truthy v = false → d.ph_min = PyVal.int 0) ∧ (truthy v = true → d.ph_min = v)) ∧
    (∀ v, dictLookup chem "ph_range_max" = some v →
       (truthy v = false → d.ph_max = PyVal.int 0) ∧ (truthy v = true → d.ph_max = v)) := by
  obtain ⟨ai, hai⟩ := dictGetD_dict m "article_info" o1
  obtain ⟨reac, hreac⟩ := dictGetD_dict m "reactants" o2
  obtain ⟨struct, hstruct⟩ := dictGetD_dict m "structure" o3
  obtain ⟨appl, happl⟩ := dictGetD_dict m "application" o4
  have hc' : dictGetD m "synthesis_conditions" (PyVal.dict []) = PyVal.dict cond := by
    unfold dictGetD
    rw [hc]
    rfl
  have hsf' : dictGetD m "surface_properties" (PyVal.dict []) = PyVal.dict surf := by
    unfold dictGetD
    rw [hsf]
    rfl
  have htm' : dictGetD m "thermal_properties" (PyVal.dict []) = PyVal.dict therm := by
    unfold dictGetD
    rw [htm]
    rfl
  have hcm' : dictGetD m "chemical_properties" (PyVal.dict []) = PyVal.dict chem := by
    unfold dictGetD
    rw [hcm]
    rfl
  have hD := digest_eval m ai reac cond therm surf chem struct appl
    hai hreac hc' htm' hsf' hcm' hstruct happl
  rw [hD] at hd
  injection hd with hd'
  subst hd'
  refine ⟨?_, ?_, ?_, ?_, ?_, ?_, ?_⟩ <;>
  · intro v hv
    constructor <;> intro htv <;> simp [dictGetD, hv, pyOr, htv]

/-- The digest fields used by the C10 witness record. -/
def c10_cond : List (String × PyVal) :=
  [("reaction_temperature_celsius", PyVal.str ""),
   ("reaction_time_seconds", PyVal.none),
   ("stepwise_segmentation", PyVal.bool false)]

/-- Surface subsection of the C10 witness record. -/
def c10_surf : List (String × PyVal) := [("surface_area_m2_per_g", PyVal.int 0)]

/-- Thermal subsection of the C10 witness record. -/
def c10_therm : List (String × PyVal) :=
  [("breakdown_temperature_celsius", PyVal.str "not_specified")]

/-- Chemical subsection of the C10 witness record. -/
def c10_chem : List (String × PyVal) :=
  [("ph_range_min", PyVal.int 3), ("ph_range_max", PyVal.none)]

/-- The C10 witness record: falsy and truthy values in the numeric fields. -/
def c10_entry : List (String × PyVal) :=
  [("synthesis_conditions", PyVal.dict c10_cond),
   ("surface_properties", PyVal.dict c10_surf),
   ("thermal_properties", PyVal.dict c10_therm),
   ("chemical_properties", PyVal.dict c10_chem)]

/-- The digest the C10 witness record evaluates to. -/
def c10_digest : Digest :=
  ⟨PyVal.str "unnamed material", PyVal.str "not_specified", PyVal.str "not_specified",
   PyVal.str "not_specified", PyVal.int 0, PyVal.int 0, PyVal.int 0, PyVal.int 0,
   PyVal.str "not_specified", PyVal.int 3, PyVal.int 0, PyVal.str "not_specified",
   PyVal.str "not_specified", PyVal.str "not_specified", PyVal.str "not_specified"⟩

/-- C10 witness: the guard evaluated on a concrete record — a falsy empty
string and `None` become 0, the truthy string sentinel and the integer 3
pass through. -/
theorem c10_falsy_guard_witness :
    c10_digest.temp = PyVal.int 0 ∧ c10_digest.time_s = PyVal.int 0 ∧
    c10_digest.tga = PyVal.str "not_specified" ∧ c10_digest.ph_min = PyVal.int 3 := by
  have H := c10_falsy_guard c10_entry c10_cond c10_surf c10_therm c10_chem
    rfl rfl rfl rfl rfl rfl rfl rfl c10_digest rfl
  exact ⟨(H.1 (PyVal.str "") rfl).1 rfl,
         (H.2.1 PyVal.none rfl).1 rfl,
         (H.2.2.2.2.1 (PyVal.str "not_specified") rfl).2 rfl,
         (H.2.2.2.2.2.1 (PyVal.int 3) rfl).2 rfl⟩

/-! ## C8 – fenced code blocks parse on the direct attempt -/

theorem pyStrip_no_space (s : String)
    (h1 : s.data.dropWhile isPySpace = s.data)
    (h2 : s.data.reverse.dropWhile isPySpace = s.data.reverse) :
    pyStrip s = s := by
  unfold pyStrip
  rw [h1, h2, List.reverse_reverse]

theorem dropWhile_reverse_concat (p : Char → Bool) (l : List Char) (c : Char)
    (hc : p c = false) : (l ++ [c]).reverse.dropWhile p = (l ++ [c]).reverse := by
  rw [List.reverse_append]
  simp [List.dropWhile_cons, hc]

theorem dropWhile_all_append (p : Char → Bool) (l m : List Char)
    (h : l.all p = true) : (l ++ m).dropWhile p = m.dropWhile p := by
  induction l with
  | nil => rfl
  | cons a l ih =>
    simp only [List.all_cons, Bool.and_eq_true] at h
    simp [List.dropWhile_cons, h.1, ih h.2]

/-- C8: a raw Agent 3 reply consisting of a single JSON object wrapped in a
fenced code block (backticks, an alphabetic language tag, a newline, the
object, closing backticks) is stripped of its fence and parses on the direct
`try_parse` attempt, so the regex-fallback branch of the reply handler is
never entered. -/
theorem c8_fenced_block (lang body : String) (kvs : List (String × PyVal))
    (hlang : lang.data.all Char.isAlpha = true)
    (hbody : json_loads body = some (PyVal.dict kvs)) :
    try_parse ("```" ++ lang ++ "\n" ++ body ++ "```") = Except.ok (PyVal.dict kvs) ∧
    agent3_predict_applications ("```" ++ lang ++ "\n" ++ body ++ "```") =
      Except.ok (PyVal.dict kvs) := by
  have hdata : ("```" ++ lang ++ "\n" ++ body ++ "```").data =
      '`' :: '`' :: '`' :: (lang.data ++ '\n' :: (body.data ++ ['`', '`', '`'])) := by
    simp [data_append, List.append_assoc, List.cons_append]
  have hdata2 : ("```" ++ lang ++ "\n" ++ body ++ "```").data =
      ('`' :: '`' :: '`' :: (lang.data ++ '\n' :: (body.data ++ ['`', '`']))) ++ ['`'] := by
    rw [hdata]
    simp [List.append_assoc, List.cons_append]
  have hsp : isPySpace '`' = false := rfl
  have hstrip : pyStrip ("```" ++ lang ++ "\n" ++ body ++ "```") =
      "```" ++ lang ++ "\n" ++ body ++ "```" := by
    apply pyStrip_no_space
    · rw [hdata]
      simp [List.dropWhile_cons, hsp]
    · rw [hdata2]
      exact dropWhile_reverse_concat isPySpace _ '`' hsp
  have htake : ("```" ++ lang ++ "\n" ++ body ++ "```").data.take 3 = "```".data := by
    rw [hdata]
    rfl
  have hdrop3 : ("```" ++ lang ++ "\n" ++ body ++ "```").data.drop 3 =
      lang.data ++ '\n' :: (body.data ++ ['`', '`', '`']) := by
    rw [hdata]
    rfl
  have hfence : stripFenceOpen ("```" ++ lang ++ "\n" ++ body ++ "```") =
      String.mk (body.data ++ ['`', '`', '`']) := by
    unfold stripFenceOpen
    rw [if_pos htake, hdrop3, dropWhile_all_append Char.isAlpha lang.data _ hlang]
    have hnl : Char.isAlpha '\n' = false := rfl
    rw [show (('\n' :: (body.data ++ ['`', '`', '`'])).dropWhile Char.isAlpha) =
        '\n' :: (body.data ++ ['`', '`', '`']) from by simp [List.dropWhile_cons, hnl]]
    rfl
  have hlen : (body.data ++ ['`', '`', '`']).length - 3 = body.data.length := by
    simp
  have hdropEnd : (body.data ++ ['`', '`', '`']).drop
      ((body.data ++ ['`', '`', '`']).length - 3) = "```".data := by
    rw [hlen, List.drop_left]
  have htakeEnd : (body.data ++ ['`', '`', '`']).take
      ((body.data ++ ['`', '`', '`']).length - 3) = body.data := by
    rw [hlen, List.take_left]
  have hmain : try_parse ("```" ++ lang ++ "\n" ++ body ++ "```") =
      Except.ok (PyVal.dict kvs) := by
    unfold try_parse
    dsimp only
    rw [hstrip, if_pos htake, hfence]
    dsimp only
    rw [if_pos hdropEnd, htakeEnd]
    rw [show String.mk body.data = body from rfl]
    unfold json_loads_exc
    rw [hbody]
  refine ⟨hmain, ?_⟩
  simp only [agent3_predict_applications, hmain]

/-- C8 witness: a concrete fenced reply with language tag `json` and the
object `{"score": 1}`. -/
theorem c8_fenced_block_witness :
    try_parse ("```" ++ "json" ++ "\n" ++ "\x7b\"score\": 1\x7d\n" ++ "```") =
      Except.ok (PyVal.dict [("score", PyVal.int 1)]) ∧
    agent3_predict_applications ("```" ++ "json" ++ "\n" ++ "\x7b\"score\": 1\x7d\n" ++ "```") =
      Except.ok (PyVal.dict [("score", PyVal.int 1)]) :=
  c8_fenced_block "json" "\x7b\"score\": 1\x7d\n" [("score", PyVal.int 1)] rfl rfl
